import Mathlib

/-!
Verification of the synthetic pediatric-healthcare data-generation pipeline
(`src/python/data_generation/`): `pediatric_data_generator.py`,
`clinical_notes_generator.py` and `generate_tch_data.py`.

Modelling conventions used throughout this shallow embedding:

* Python `datetime` values are modelled as integers counting hours;
  `timedelta(days=d)` is `24*d` hours, `timedelta(hours=h)` is `h` hours, and
  the `.days` attribute of a timedelta is floor division by 24 (Python
  timedelta division semantics).
* Draws from the seeded `random` module are passed in as explicit arguments,
  constrained in theorems exactly by the guarantees of the Python API:
  `random.random()` yields a rational in `[0, 1)`, `random.uniform(a, b)` is
  `a + (b - a) * random()`, `random.randint(a, b)` yields an integer in
  `[a, b]`, `random.choices(pop, weights)[0]` yields a member of `pop`
  selected by comparing `random()` against cumulative weights, and
  `random.sample(pop, k)` yields `k` distinct members of `pop`.
* Python f-string zero-padded decimal formatting (`f"{n:06d}"`) is modelled by
  `zero_padded` below, built from base-10 digits.
* `uuid.uuid4().hex` (used for clinical-document ids) is OS entropy that is
  independent of the seeded random source; it is modelled as an explicit
  entropy argument that is *not* part of the seeded draw arguments.
-/

namespace TCH

/-! ### Decimal formatting (`f"{n:06d}"` and friends) -/

/-- Base-10 digits of `n`, least significant first, computed with explicit
fuel so that the definition reduces by `decide`.  `digits_rev_aux fuel 0 = []`. -/
def digits_rev_aux (fuel n : ℕ) : List ℕ :=
  match fuel with
  | 0 => []
  | fuel + 1 => if n = 0 then [] else (n % 10) :: digits_rev_aux fuel (n / 10)

/-- Base-10 digits of `n`, least significant first (`n` itself is enough fuel). -/
def dec_digits_le (n : ℕ) : List ℕ := digits_rev_aux n n

theorem of_digits_digits_rev_aux (fuel : ℕ) : ∀ n : ℕ, n ≤ fuel →
    Nat.ofDigits 10 (digits_rev_aux fuel n) = n := by
  induction fuel with
  | zero => intro n hn; interval_cases n; simp [digits_rev_aux]
  | succ fuel ih =>
    intro n hn
    by_cases h : n = 0
    · simp [digits_rev_aux, h]
    · have hlt : n / 10 ≤ fuel := by omega
      simp only [digits_rev_aux, h, if_false, Nat.ofDigits_cons, ih _ hlt]
      omega

theorem of_digits_dec_digits_le (n : ℕ) : Nat.ofDigits 10 (dec_digits_le n) = n :=
  of_digits_digits_rev_aux n n le_rfl

theorem digits_rev_aux_lt (fuel : ℕ) : ∀ n : ℕ, ∀ x ∈ digits_rev_aux fuel n, x < 10 := by
  induction fuel with
  | zero => intro n x hx; simp [digits_rev_aux] at hx
  | succ fuel ih =>
    intro n x hx
    by_cases h : n = 0
    · simp [digits_rev_aux, h] at hx
    · simp only [digits_rev_aux, h, if_false, List.mem_cons] at hx
      rcases hx with hx | hx
      · omega
      · exact ih _ _ hx

/-- The decimal rendering of `n` zero-padded on the left to width `w`:
the model of Python `f"{n:06d}"` (with `w = 6`) and of the other
fixed-width id formats in the source. -/
def zero_padded (w n : ℕ) : String :=
  String.mk (((dec_digits_le n ++ List.replicate (w - (dec_digits_le n).length) 0).reverse).map Nat.digitChar)

theorem of_digits_replicate_zero (k : ℕ) : Nat.ofDigits 10 (List.replicate k 0) = 0 := by
  induction k with
  | zero => simp [Nat.ofDigits]
  | succ k ih => simp [List.replicate, Nat.ofDigits_cons, ih]

theorem digit_char_inj_lt (a b : ℕ) (ha : a < 10) (hb : b < 10)
    (h : Nat.digitChar a = Nat.digitChar b) : a = b := by
  interval_cases a <;> interval_cases b <;> first | rfl | (exfalso; revert h; decide)

theorem map_digit_char_inj : ∀ l1 l2 : List ℕ, (∀ x ∈ l1, x < 10) → (∀ x ∈ l2, x < 10) →
    l1.map Nat.digitChar = l2.map Nat.digitChar → l1 = l2 := by
  intro l1
  induction l1 with
  | nil => intro l2 _ _ h; cases l2 <;> simp_all
  | cons a l1 ih =>
    intro l2 h1 h2 h
    cases l2 with
    | nil => simp_all
    | cons b l2 =>
      simp only [List.map_cons, List.cons.injEq] at h
      have hab : a = b :=
        digit_char_inj_lt a b (h1 a (by simp)) (h2 b (by simp)) h.1
      have : l1 = l2 :=
        ih l2 (fun x hx => h1 x (by simp [hx])) (fun x hx => h2 x (by simp [hx])) h.2
      simp [hab, this]

theorem zero_padded_injective (w : ℕ) : Function.Injective (zero_padded w) := by
  intro m n h
  have hdata : ((dec_digits_le m ++ List.replicate (w - (dec_digits_le m).length) 0).reverse).map Nat.digitChar
      = ((dec_digits_le n ++ List.replicate (w - (dec_digits_le n).length) 0).reverse).map Nat.digitChar := by
    have := congrArg String.data h
    simpa [zero_padded] using this
  have hm : ∀ x ∈ (dec_digits_le m ++ List.replicate (w - (dec_digits_le m).length) 0).reverse, x < 10 := by
    intro x hx
    simp only [List.mem_reverse, List.mem_append, List.mem_replicate] at hx
    rcases hx with hx | hx
    · exact digits_rev_aux_lt m m x hx
    · omega
  have hn : ∀ x ∈ (dec_digits_le n ++ List.replicate (w - (dec_digits_le n).length) 0).reverse, x < 10 := by
    intro x hx
    simp only [List.mem_reverse, List.mem_append, List.mem_replicate] at hx
    rcases hx with hx | hx
    · exact digits_rev_aux_lt n n x hx
    · omega
  have hlists := map_digit_char_inj _ _ hm hn hdata
  have hpad : dec_digits_le m ++ List.replicate (w - (dec_digits_le m).length) 0
      = dec_digits_le n ++ List.replicate (w - (dec_digits_le n).length) 0 :=
    List.reverse_injective hlists
  have hof := congrArg (Nat.ofDigits 10) hpad
  rw [Nat.ofDigits_append, Nat.ofDigits_append, of_digits_dec_digits_le,
    of_digits_dec_digits_le, of_digits_replicate_zero, of_digits_replicate_zero] at hof
  simpa using hof

theorem string_append_left_cancel (p s t : String) (h : p ++ s = p ++ t) : s = t := by
  have hd : p.data ++ s.data = p.data ++ t.data := by
    rw [← String.data_append, ← String.data_append, h]
  have := List.append_cancel_left hd
  cases s; cases t; simp_all

/-! ### Entity identifiers

`pediatric_data_generator.py` assigns every structured entity id from a
per-entity integer counter: `f"TCH-{i+1:06d}"` for patients (line 138, `i`
the 0-based loop index), `f"ENC-{encounter_id:08d}"` for encounters
(line 174, counter starting at 1), and similarly `DX-`, `LAB-`, `MED-`,
`VS-` (8 digits), `IMG-`, `PROV-` (6), `DEPT-` (3) elsewhere.
`clinical_notes_generator.py` instead derives document ids from OS entropy:
`f"NOTE-{uuid.uuid4().hex[:8].upper()}"` (line 152), and likewise `RAD-`,
`NURS-`, `CONS-`. -/

/-- Patient id for 0-based position `i`: `f"TCH-{i+1:06d}"`. -/
def patient_id_str (i : ℕ) : String := "TCH-" ++ zero_padded 6 (i + 1)

/-- Encounter id for counter value `n` (the counter starts at 1):
`f"ENC-{encounter_id:08d}"`. -/
def encounter_id_str (n : ℕ) : String := "ENC-" ++ zero_padded 8 n

/-- Diagnosis id for counter value `n`: `f"DX-{diagnosis_id:08d}"`. -/
def diagnosis_id_str (n : ℕ) : String := "DX-" ++ zero_padded 8 n

/-- Lab-result id for counter value `n`: `f"LAB-{lab_id:08d}"` (line 253). -/
def lab_id_str (n : ℕ) : String := "LAB-" ++ zero_padded 8 n

/-- Medication id for counter value `n`: `f"MED-{med_id:08d}"` (line 290). -/
def medication_id_str (n : ℕ) : String := "MED-" ++ zero_padded 8 n

/-- Vital-sign id for counter value `n`: `f"VS-{vital_id:08d}"` (line 325). -/
def vital_sign_id_str (n : ℕ) : String := "VS-" ++ zero_padded 8 n

/-- Imaging-study id for counter value `n`: `f"IMG-{study_id:08d}"`
(`generate_tch_data.py` line 273). -/
def imaging_id_str (n : ℕ) : String := "IMG-" ++ zero_padded 8 n

/-- Provider id for counter value `n`: `f"PROV-{provider_id:06d}"`
(`generate_tch_data.py` line 335). -/
def provider_id_str (n : ℕ) : String := "PROV-" ++ zero_padded 6 n

/-- Department id for counter value `n`: `f"DEPT-{i:03d}"` with `i` from
`enumerate(dept_info, 1)` (`generate_tch_data.py` lines 374-376). -/
def department_id_str (n : ℕ) : String := "DEPT-" ++ zero_padded 3 n

/-- The first 8 characters of a string, uppercased: models
`uuid.uuid4().hex[:8].upper()` applied to the entropy argument. -/
def hex_upper_8 (s : String) : String := String.mk ((s.data.take 8).map Char.toUpper)

/-- Clinical-document id: `f"NOTE-{uuid.uuid4().hex[:8].upper()}"` where
`uuid_hex` is the 32-character lowercase hex of a version-4 UUID drawn from
OS entropy, independent of the seeded random source. -/
def note_id_str (uuid_hex : String) : String := "NOTE-" ++ hex_upper_8 uuid_hex

/-- The ordered list of patient ids produced by
`generate_patient_demographics(count)`: position `i` gets `patient_id_str i`. -/
def generate_patient_ids (count : ℕ) : List String :=
  (List.range count).map patient_id_str

theorem patient_id_str_injective : Function.Injective patient_id_str := by
  intro i j h
  have := string_append_left_cancel "TCH-" _ _ h
  have := zero_padded_injective 6 this
  omega

theorem encounter_id_str_injective : Function.Injective encounter_id_str := by
  intro i j h
  exact zero_padded_injective 8 (string_append_left_cancel "ENC-" _ _ h)

/-- Any fixed-prefix zero-padded counter id scheme assigns distinct ids to
distinct counter values. -/
theorem prefixed_id_injective (p : String) (w i j : ℕ)
    (h : p ++ zero_padded w i = p ++ zero_padded w j) : i = j :=
  zero_padded_injective w (string_append_left_cancel p _ _ h)

/-! ### Time model -/

/-- `timedelta(days=d)`, in hours. -/
def timedelta_days (d : ℤ) : ℤ := 24 * d

/-- `timedelta(hours=h)`, in hours. -/
def timedelta_hours (h : ℤ) : ℤ := h

/-- The `.days` attribute of a timedelta of `delta` hours: Python floor
division by 24. -/
def timedelta_days_field (delta : ℤ) : ℤ := Int.fdiv delta 24

/-! ### Encounter generation (`generate_encounters`, lines 157-196) -/

/-- An Encounter record, mirroring the dict built in `generate_encounters`.
`created_date`/`updated_date` are omitted: `created_date` duplicates
`encounter_date` and `updated_date` is the wall-clock `datetime.now()`. -/
structure Encounter where
  encounter_id : String
  patient_id : String
  encounter_date : ℤ
  encounter_type : String
  department : String
  attending_physician : String
  admission_date : ℤ
  discharge_date : ℤ
  length_of_stay : ℤ
  chief_complaint : String
  status : String
deriving DecidableEq

/-- `_determine_encounter_type` (lines 433-442).  `type_roll` models the
`random.random()` hidden in `random.choices(['Outpatient','Inpatient'],
weights=[0.85, 0.15])`: the cumulative-weight rule picks `'Outpatient'`
exactly when the roll is below 0.85. -/
def determine_encounter_type (department : String) (type_roll : ℚ) : String :=
  if department = "Emergency Department" then "Emergency"
  else if department = "Pediatric ICU" ∨ department = "NICU" then "Inpatient"
  else if department = "Ambulatory Surgery" ∨ department = "Radiology" then "Outpatient"
  else if type_roll < 17/20 then "Outpatient" else "Inpatient"

/-- The population of `random.choices` in the Inpatient arm of
`_generate_discharge_date` (line 455). -/
def los_choices : List ℤ := [1, 2, 3, 4, 5, 6, 7, 8, 9, 10, 15, 20, 30]

/-- `_generate_discharge_date` (lines 444-457).  `em_roll` is the
`random.random()` in the Emergency arm, `em_days` the `random.randint(1, 3)`
result, and `los` the `random.choices(...)` result from `los_choices`.
Note the final arm is an `else`: any type other than `'Outpatient'` and
`'Emergency'` takes the Inpatient branch. -/
def generate_discharge_date (admission_date : ℤ) (encounter_type : String)
    (em_roll : ℚ) (em_days los : ℤ) : ℤ :=
  if encounter_type = "Outpatient" then admission_date
  else if encounter_type = "Emergency" then
    if em_roll < 4/5 then admission_date
    else admission_date + timedelta_days em_days
  else admission_date + timedelta_days los

/-- The body of the per-encounter loop of `generate_encounters`
(lines 173-192): `admission_date = encounter_date`, the discharge date comes
from `_generate_discharge_date`, and `length_of_stay` is recomputed as
`(discharge_date - encounter_date).days` (the guard
`if encounter['discharge_date']:` is always true, as every branch of
`_generate_discharge_date` returns a datetime). -/
def build_encounter (encounter_id_num : ℕ) (pid : String) (encounter_date : ℤ)
    (department encounter_type attending complaint status : String)
    (em_roll : ℚ) (em_days los : ℤ) : Encounter :=
  let discharge := generate_discharge_date encounter_date encounter_type em_roll em_days los
  { encounter_id := encounter_id_str encounter_id_num
    patient_id := pid
    encounter_date := encounter_date
    encounter_type := encounter_type
    department := department
    attending_physician := attending
    admission_date := encounter_date
    discharge_date := discharge
    length_of_stay := timedelta_days_field (discharge - encounter_date)
    chief_complaint := complaint
    status := status }

/-! ### Diagnoses (`generate_diagnoses`, lines 198-226) -/

/-- A Diagnosis record, mirroring the dict built in `generate_diagnoses`
(`created_date`/`updated_date` omitted as for `Encounter`). -/
structure Diagnosis where
  diagnosis_id : String
  encounter_id : String
  patient_id : String
  diagnosis_code : String
  diagnosis_description : String
  diagnosis_type : String
  diagnosis_date : ℤ
deriving DecidableEq

/-- The population of `random.choices([1, 2, 3], weights=[0.6, 0.3, 0.1])`
deciding how many diagnoses an encounter receives (line 205). -/
def num_diagnoses_choices : List ℕ := [1, 2, 3]

/-! ### Medication selection (`_select_medications_for_diagnoses`,
lines 580-605, and `generate_medications`, lines 270-306) -/

/-- Python `code.startswith(p)`. -/
def starts_with (code p : String) : Bool := code.data.take p.data.length == p.data

/-- The medications contributed by one diagnosis code: the if/elif chain of
`_select_medications_for_diagnoses` (lines 584-599).  Every arm, including
the final generic-supportive-care `else`, contributes at least one
medication. -/
def meds_for_code (code : String) : List String :=
  if code = "J45.9" then ["Albuterol", "Fluticasone"]
  else if code = "F90.9" then ["Methylphenidate"]
  else if code = "E10.9" then ["Insulin"]
  else if starts_with code "J06" || starts_with code "B34" then ["Acetaminophen", "Ibuprofen"]
  else if code = "K21.9" then ["Omeprazole"]
  else ["Acetaminophen", "Ibuprofen"]

/-- `_select_medications_for_diagnoses`: concatenate the candidates of each
diagnosis code, deduplicate (`list(set(medications))`; Python set order is
arbitrary, so we model only the underlying set via `List.dedup`), and cap at
3 via `random.sample(unique_meds, 3)`, modelled by the `samp` argument. -/
def select_medications_for_diagnoses (dx_codes : List String)
    (samp : List String → List String) : List String :=
  let unique := (dx_codes.flatMap meds_for_code).dedup
  if 3 < unique.length then samp unique else unique

/-- A Medication record, mirroring the dict built in `generate_medications`
(lines 289-302): `start_date` is the encounter date and `end_date` is
`encounter_date + timedelta(days=random.randint(1, 30))` (`dur` models the
randint result). -/
structure Medication where
  medication_id : String
  encounter_id : String
  patient_id : String
  medication_name : String
  dosage : String
  frequency : String
  route : String
  start_date : ℤ
  end_date : ℤ
  prescribing_provider : String
deriving DecidableEq

/-- The dict literal of the `generate_medications` loop body for one
medication name. -/
def build_medication (med_id_num : ℕ) (enc : Encounter)
    (name dosage frequency route : String) (dur : ℤ) : Medication :=
  { medication_id := medication_id_str med_id_num
    encounter_id := enc.encounter_id
    patient_id := enc.patient_id
    medication_name := name
    dosage := dosage
    frequency := frequency
    route := route
    start_date := enc.encounter_date
    end_date := enc.encounter_date + timedelta_days dur
    prescribing_provider := enc.attending_physician }

/-- The medication records emitted for one encounter by
`generate_medications`: one record per selected medication name, with the
`med_id` counter advancing per record.  The dosage/frequency/route/duration
draws are fresh per record in the source; a single representative value of
each is threaded here since no claim depends on them varying. -/
def generate_medications_for_encounter (med_id_start : ℕ) (enc : Encounter)
    (dx_codes : List String) (samp : List String → List String)
    (dosage frequency route : String) (dur : ℤ) : List Medication :=
  (select_medications_for_diagnoses dx_codes samp).enum.map
    (fun p => build_medication (med_id_start + p.1) enc p.2 dosage frequency route dur)

/-! ### Lab results (`generate_lab_results`, `_select_lab_tests`,
`_generate_lab_value`, lines 228-268 and 499-578) -/

/-- `random.uniform(a, b)`: `a + (b - a) * random()` with `random()` in
`[0, 1)` (CPython implements `uniform` exactly this way). -/
def uniform_draw (a b u : ℚ) : ℚ := a + (b - a) * u

/-- Python `round(x, 1)`: round to one decimal place.  (CPython uses
round-half-even; the draws in the claims below never hit an exact tie, and
the bounds proved about `round1` hold for either tie-breaking rule.) -/
def round1 (x : ℚ) : ℚ := (round (10 * x) : ℤ) / 10

/-- One age bucket of `lab_reference_ranges`: the source keys buckets by
strings `"minAge-maxAge"` parsed at lookup time; here they are parsed once. -/
structure AgeBucket where
  lo_age : ℕ
  hi_age : ℕ
  lo : ℚ
  hi : ℚ
deriving DecidableEq

/-- `self.lab_reference_ranges` (lines 98-121), with the age-keyed dicts in
their insertion order and the range strings parsed to numbers
(e.g. `'0-1': (14.0, 20.0)` becomes `⟨0, 1, 14, 20⟩`). -/
def lab_reference_ranges (test_name : String) : Option (List AgeBucket) :=
  if test_name = "Hemoglobin" then
    some [⟨0, 1, 14, 20⟩, ⟨1, 3, 19/2, 13⟩, ⟨4, 6, 21/2, 27/2⟩,
          ⟨7, 12, 11, 14⟩, ⟨13, 15, 12, 76/5⟩, ⟨16, 21, 63/5, 83/5⟩]
  else if test_name = "Hemoglobin A1c" then
    some [⟨0, 21, 9/2, 57/10⟩]
  else if test_name = "White Blood Cells" then
    some [⟨0, 1, 9000, 30000⟩, ⟨1, 3, 6000, 17500⟩, ⟨4, 6, 5500, 15500⟩,
          ⟨7, 12, 4500, 13500⟩, ⟨13, 21, 4500, 11000⟩]
  else if test_name = "Platelet Count" then
    some [⟨0, 21, 150000, 450000⟩]
  else if test_name = "Glucose" then
    some [⟨0, 21, 70, 100⟩]
  else if test_name = "Creatinine" then
    some [⟨0, 1, 1/5, 2/5⟩, ⟨1, 3, 3/10, 1/2⟩, ⟨4, 6, 2/5, 3/5⟩,
          ⟨7, 12, 1/2, 4/5⟩, ⟨13, 21, 3/5, 6/5⟩]
  else none

/-- The age-range search of `_generate_lab_value` (lines 541-551): iterate
the buckets in insertion order and take the first with
`min_age <= age <= max_age`.  (Every key of the source table contains `'-'`,
so the no-dash fallback branch of the loop is dead code.) -/
def find_age_range (buckets : List AgeBucket) (age : ℕ) : Option AgeBucket :=
  buckets.find? (fun b => decide (b.lo_age ≤ age ∧ age ≤ b.hi_age))

/-- A generated lab value: numeric, or the literal string `"Normal"` used
when no reference range applies. -/
inductive LabVal
| num (q : ℚ)
| text (s : String)
deriving DecidableEq

/-- The `(value, reference_range, abnormal_flag)` triple returned by
`_generate_lab_value`.  The reference range is the `(min, max)` pair the
source renders as `f"{ref_min}-{ref_max}"`; `none` models the two
"Reference range not defined/available" string outcomes. -/
structure LabGenResult where
  value : LabVal
  reference_range : Option (ℚ × ℚ)
  abnormal_flag : String
deriving DecidableEq

/-- The draws consumed by `_generate_lab_value`: `roll` is the first
`random.random()` (the HbA1c tier roll, or the 90/10 normal/abnormal roll),
`coin` the second `random.random()` (the 50/50 low/high split), and `u` the
`random()` inside `random.uniform`. -/
structure LabDraws where
  roll : ℚ
  coin : ℚ
  u : ℚ

/-- The output formatting of the generic arm of `_generate_lab_value`
(lines 569-572): White Blood Cells and Platelet Count are emitted as
`str(int(value))` — `int()` truncates toward zero, which for the positive
values drawn here is the floor — and every other test as `f"{value:.1f}"`,
one decimal place, modelled by `round1`.  (Python's `.1f` rounds ties to
even while `round1` rounds ties up; no draw constrained below sits on a
tie, and every bound proved about `round1` holds for either rule.) -/
def format_lab_value (test_name : String) (v : ℚ) : ℚ :=
  if test_name = "White Blood Cells" ∨ test_name = "Platelet Count" then ((⌊v⌋ : ℤ) : ℚ)
  else round1 v

/-- `_generate_lab_value` (lines 517-578).  The HbA1c arm comes first and
returns `round(uniform(...), 1)` with the reference range taken from the
`'0-21'` entry of the table (4.5-5.7); since its value is already rounded to
one decimal, the subsequent `f"{value:.1f}"` leaves it unchanged.  The
generic arm draws within or beside the age bucket found by
`find_age_range` and then formats the value with `format_lab_value`. -/
def generate_lab_value (test_name : String) (age : ℕ) (d : LabDraws) : LabGenResult :=
  if test_name = "Hemoglobin A1c" then
    if d.roll < 3/4 then
      { value := LabVal.num (round1 (uniform_draw (24/5) 6 d.u)),
        reference_range := some (9/2, 57/10), abnormal_flag := "" }
    else if d.roll < 9/10 then
      { value := LabVal.num (round1 (uniform_draw (13/2) (89/10) d.u)),
        reference_range := some (9/2, 57/10), abnormal_flag := "H" }
    else
      { value := LabVal.num (round1 (uniform_draw 9 (27/2) d.u)),
        reference_range := some (9/2, 57/10), abnormal_flag := "H" }
  else
    match lab_reference_ranges test_name with
    | none => { value := LabVal.text "Normal", reference_range := none, abnormal_flag := "" }
    | some buckets =>
      match find_age_range buckets age with
      | none => { value := LabVal.text "Normal", reference_range := none, abnormal_flag := "" }
      | some b =>
        if d.roll < 9/10 then
          { value := LabVal.num (format_lab_value test_name (uniform_draw b.lo b.hi d.u)),
            reference_range := some (b.lo, b.hi), abnormal_flag := "" }
        else if d.coin < 1/2 then
          { value := LabVal.num (format_lab_value test_name (uniform_draw (7/10 * b.lo) b.lo d.u)),
            reference_range := some (b.lo, b.hi), abnormal_flag := "L" }
        else
          { value := LabVal.num (format_lab_value test_name (uniform_draw b.hi (13/10 * b.hi) d.u)),
            reference_range := some (b.lo, b.hi), abnormal_flag := "H" }

/-- The department-conditioned test panel of `_select_lab_tests`
(lines 499-508). -/
def lab_tests_for_department (department : String) : List String :=
  if department = "Emergency Department" ∨ department = "Pediatric ICU" then
    ["Hemoglobin", "White Blood Cells", "Platelet Count", "Glucose", "Creatinine"]
  else if department = "Endocrinology" then
    ["Hemoglobin A1c", "Glucose", "Thyroid Function"]
  else
    ["Hemoglobin", "White Blood Cells", "Platelet Count"]

/-- `_select_lab_tests` (lines 499-515): take a random nonempty subset of the
panel (`random.sample(tests, randint(1, len(tests)))`, modelled by the
`sample` argument) and force `'Hemoglobin A1c'` into the selection whenever
the panel contains it.  The source materialises a Python set, whose
iteration order is arbitrary; the selection is modelled as a list with the
same members. -/
def select_lab_tests (department : String) (sample : List String) : List String :=
  let tests := lab_tests_for_department department
  if "Hemoglobin A1c" ∈ tests then
    if "Hemoglobin A1c" ∈ sample then sample else sample ++ ["Hemoglobin A1c"]
  else sample

/-- The `result_date` of a lab result (line 260):
`encounter_date + timedelta(hours=random.randint(1, 24))`. -/
def lab_result_date (encounter_date : ℤ) (hours : ℤ) : ℤ :=
  encounter_date + timedelta_hours hours

/-! ### Clinical notes: diagnosis grouping and the discharge summary
(`generate_tch_data.py` lines 389-457, `clinical_notes_generator.py`
lines 383-446) -/

/-- One step of the dict-building loop of `_generate_clinical_notes`
(lines 399-402): append `dx` to the bucket keyed by its `encounter_id`. -/
def group_step (m : String → List Diagnosis) (dx : Diagnosis) : String → List Diagnosis :=
  fun k => if k = dx.encounter_id then m k ++ [dx] else m k

/-- The `encounter_diagnoses` dict of `_generate_clinical_notes` as a lookup
function; `encounter_diagnoses.get(eid, [])` is `group_diagnoses_by_encounter
diagnoses eid`. -/
def group_diagnoses_by_encounter (diagnoses : List Diagnosis) : String → List Diagnosis :=
  diagnoses.foldl group_step (fun _ => [])

/-- The lines of the `FINAL DIAGNOSES:` section of
`_build_discharge_summary_content` (line 435): one line
`f"- {dx['diagnosis_description']} ({dx['diagnosis_code']})"` per entry of
the `diagnosis_data` argument. -/
def final_diagnoses_lines (diagnosis_data : List Diagnosis) : List String :=
  diagnosis_data.map
    (fun dx => "- " ++ dx.diagnosis_description ++ " (" ++ dx.diagnosis_code ++ ")")

/-- The diagnosis codes mentioned in the `FINAL DIAGNOSES:` section: exactly
the codes of the `diagnosis_data` list rendered by `final_diagnoses_lines`. -/
def discharge_summary_diagnosis_codes (diagnosis_data : List Diagnosis) : List String :=
  diagnosis_data.map (fun dx => dx.diagnosis_code)

/-! ### Symptom phrasing in progress notes
(`_build_progress_note_content`, lines 308-319) -/

/-- The fixed symptom vocabulary `self.pediatric_symptoms` (lines 32-38). -/
def pediatric_symptoms : List String :=
  ["fever", "cough", "vomiting", "diarrhea", "abdominal pain", "headache",
   "sore throat", "ear pain", "rash", "congestion", "wheezing", "fatigue",
   "poor feeding", "irritability", "difficulty breathing", "shortness of breath",
   "chest pain", "joint pain", "muscle aches", "nausea", "dizziness",
   "anxiety", "panic", "sleep disturbance", "appetite loss"]

/-- `severity_terms` (line 312). -/
def severity_terms : List String :=
  ["mild", "moderate", "severe", "intermittent", "persistent", "worsening", "improving"]

/-- The threshold of the first draw of `describe_symptom`:
`if random.random() < 0.2: return f"denies {sym}"`. -/
def negation_threshold : ℚ := 1/5

/-- The threshold of the second draw of `describe_symptom`:
`if random.random() < 0.6: return f"{severity} {sym}"`. -/
def severity_threshold : ℚ := 3/5

/-- Which of the three phrasings `describe_symptom` produces. -/
inductive SymptomPhrasing
| negation
| severity
| plain
deriving DecidableEq

/-- The branch structure of `describe_symptom` (lines 313-318): the two
`random.random()` draws are sequential and independent, so the severity
branch is reached only when the first draw fails the negation test. -/
def phrase_branch (r1 r2 : ℚ) : SymptomPhrasing :=
  if r1 < negation_threshold then SymptomPhrasing.negation
  else if r2 < severity_threshold then SymptomPhrasing.severity
  else SymptomPhrasing.plain

/-- `describe_symptom`: `k` models the `random.choice(severity_terms)` index. -/
def describe_symptom (r1 r2 : ℚ) (k : ℕ) (sym : String) : String :=
  match phrase_branch r1 r2 with
  | SymptomPhrasing.negation => "denies " ++ sym
  | SymptomPhrasing.severity => severity_terms.getD k "mild" ++ " " ++ sym
  | SymptomPhrasing.plain => sym

/-- Product measure of the plain-branch region
`[negation_threshold, 1) × [severity_threshold, 1)` of the unit square of
draw pairs: the probability that a symptom is phrased plainly. -/
def plain_probability : ℚ := (1 - negation_threshold) * (1 - severity_threshold)

/-- Product measure of the severity-branch region
`[negation_threshold, 1) × [0, severity_threshold)`. -/
def severity_probability : ℚ := (1 - negation_threshold) * severity_threshold

/-- Measure of the negation-branch region `[0, negation_threshold) × [0, 1)`. -/
def negation_probability : ℚ := negation_threshold

/-! ### Per-document error handling in the orchestrator
(`_generate_clinical_notes`, lines 420-452) -/

/-- The note types scheduled for an encounter (lines 420-430). -/
def note_types_to_generate (enc : Encounter) : List String :=
  ["progress"]
    ++ (if enc.encounter_type = "Inpatient" then ["nursing", "discharge"] else [])
    ++ (if enc.encounter_type = "Emergency" then ["nursing"] else [])
    ++ (if enc.department = "Cardiology" ∨ enc.department = "Neurology"
          ∨ enc.department = "Pulmonology" then ["consultation"] else [])

/-- The message printed by the `except` handler (line 451):
`f"    Error generating {note_type} note for encounter {encounter['encounter_id']}: {e}"`. -/
def note_error_line (note_type : String) (enc : Encounter) (msg : String) : String :=
  "    Error generating " ++ note_type ++ " note for encounter "
    ++ enc.encounter_id ++ ": " ++ msg

/-- The try/except loop over an encounter's scheduled note types
(lines 433-452): a successful generation appends the note, a raised error
appends a log line and `continue`s.  `gen` is the (possibly failing) call
into the `ClinicalNotesGenerator`. -/
def generate_notes_for_encounter {α : Type} (gen : String → Encounter → Except String α)
    (enc : Encounter) : List α × List String :=
  (note_types_to_generate enc).foldl
    (fun acc nt =>
      match gen nt enc with
      | Except.ok note => (acc.1 ++ [note], acc.2)
      | Except.error msg => (acc.1, acc.2 ++ [note_error_line nt enc msg]))
    ([], [])

/-- The outer loop of `_generate_clinical_notes` over the sampled encounters,
accumulating the generated notes and the error log. -/
def generate_clinical_notes_batch {α : Type} (gen : String → Encounter → Except String α)
    (encounters : List Encounter) : List α × List String :=
  encounters.foldl
    (fun acc enc =>
      (acc.1 ++ (generate_notes_for_encounter gen enc).1,
       acc.2 ++ (generate_notes_for_encounter gen enc).2))
    ([], [])

/-- The notes that succeed for one encounter, in schedule order. -/
def successful_notes {α : Type} (gen : String → Encounter → Except String α)
    (enc : Encounter) : List α :=
  (note_types_to_generate enc).filterMap (fun nt => (gen nt enc).toOption)

/-- The error-log lines produced for one encounter, in schedule order. -/
def failure_log {α : Type} (gen : String → Encounter → Except String α)
    (enc : Encounter) : List String :=
  (note_types_to_generate enc).filterMap
    (fun nt =>
      match gen nt enc with
      | Except.ok _ => none
      | Except.error msg => some (note_error_line nt enc msg))

/-! ### Per-document error handling for radiology reports
(`_generate_radiology_reports`, `generate_tch_data.py` lines 459-495) -/

/-- An ImagingStudy record, mirroring the dict built in
`_generate_imaging_studies` (`generate_tch_data.py` lines 272-286;
`created_date`/`updated_date` omitted as for the other entities). -/
structure ImagingStudy where
  imaging_study_id : String
  encounter_id : String
  patient_id : String
  study_type : String
  study_name : String
  study_date : ℤ
  ordering_provider : String
  performing_department : String
  study_status : String
  modality : String
  body_part : String
deriving DecidableEq

/-- The message printed by the `except` handler of
`_generate_radiology_reports` (line 489): `f"    Error generating radiology
report for study {study['imaging_study_id']}: {e}"`. -/
def radiology_error_line (study : ImagingStudy) (msg : String) : String :=
  "    Error generating radiology report for study "
    ++ study.imaging_study_id ++ ": " ++ msg

/-- The loop of `_generate_radiology_reports` (lines 468-490): a study gets a
report only when its status is `Completed` or `Final`; the whole try block
(patient and encounter lookup, report generation, augmentation with the
study id) is modelled by `rgen`; a raised error appends a log line and
`continue`s. -/
def generate_radiology_reports_batch {α : Type} (rgen : ImagingStudy → Except String α)
    (studies : List ImagingStudy) : List α × List String :=
  studies.foldl
    (fun acc study =>
      if study.study_status = "Completed" ∨ study.study_status = "Final" then
        match rgen study with
        | Except.ok r => (acc.1 ++ [r], acc.2)
        | Except.error msg => (acc.1, acc.2 ++ [radiology_error_line study msg])
      else acc)
    ([], [])

/-- The studies the radiology loop attempts a report for. -/
def eligible_studies (studies : List ImagingStudy) : List ImagingStudy :=
  studies.filter
    (fun s => decide (s.study_status = "Completed" ∨ s.study_status = "Final"))

/-- The radiology reports that succeed, in study order. -/
def successful_reports {α : Type} (rgen : ImagingStudy → Except String α)
    (studies : List ImagingStudy) : List α :=
  (eligible_studies studies).filterMap (fun s => (rgen s).toOption)

/-- The radiology error-log lines, in study order. -/
def radiology_failure_log {α : Type} (rgen : ImagingStudy → Except String α)
    (studies : List ImagingStudy) : List String :=
  (eligible_studies studies).filterMap
    (fun s =>
      match rgen s with
      | Except.ok _ => none
      | Except.error msg => some (radiology_error_line s msg))

/-! ### Helper lemmas -/

theorem uniform_draw_mem (a b u : ℚ) (hab : a ≤ b) (h0 : 0 ≤ u) (h1 : u < 1) :
    a ≤ uniform_draw a b u ∧ uniform_draw a b u ≤ b := by
  unfold uniform_draw
  constructor <;> nlinarith

theorem uniform_draw_lt (a b u : ℚ) (hab : a < b) (h0 : 0 ≤ u) (h1 : u < 1) :
    uniform_draw a b u < b := by
  unfold uniform_draw
  nlinarith

theorem round_mono_rat (x y : ℚ) (h : x ≤ y) : round x ≤ round y := by
  rw [round_eq, round_eq]
  exact Int.floor_le_floor (by linarith)

theorem round1_bounds (m n : ℤ) (x : ℚ) (h1 : (m : ℚ)/10 ≤ x) (h2 : x ≤ (n : ℚ)/10) :
    (m : ℚ)/10 ≤ round1 x ∧ round1 x ≤ (n : ℚ)/10 := by
  have hm : m ≤ round (10 * x) := by
    have h : ((m : ℚ)) ≤ 10 * x := by linarith
    have := round_mono_rat ((m : ℚ)) (10 * x) h
    rwa [round_intCast] at this
  have hn : round (10 * x) ≤ n := by
    have h : (10 * x) ≤ ((n : ℚ)) := by linarith
    have := round_mono_rat (10 * x) ((n : ℚ)) h
    rwa [round_intCast] at this
  unfold round1
  constructor
  · have : (m : ℚ) ≤ ((round (10 * x) : ℤ) : ℚ) := by exact_mod_cast hm
    linarith
  · have : ((round (10 * x) : ℤ) : ℚ) ≤ (n : ℚ) := by exact_mod_cast hn
    linarith

theorem round1_ge (m : ℤ) (x : ℚ) (h : (m : ℚ)/10 ≤ x) : (m : ℚ)/10 ≤ round1 x := by
  have hm : m ≤ round (10 * x) := by
    have h10 : ((m : ℚ)) ≤ 10 * x := by linarith
    have := round_mono_rat ((m : ℚ)) (10 * x) h10
    rwa [round_intCast] at this
  unfold round1
  have : (m : ℚ) ≤ ((round (10 * x) : ℤ) : ℚ) := by exact_mod_cast hm
  linarith

theorem round1_le (n : ℤ) (x : ℚ) (h : x ≤ (n : ℚ)/10) : round1 x ≤ (n : ℚ)/10 := by
  have hn : round (10 * x) ≤ n := by
    have h10 : (10 * x) ≤ ((n : ℚ)) := by linarith
    have := round_mono_rat (10 * x) ((n : ℚ)) h10
    rwa [round_intCast] at this
  unfold round1
  have : ((round (10 * x) : ℤ) : ℚ) ≤ (n : ℚ) := by exact_mod_cast hn
  linarith

theorem round1_near (x : ℚ) : x - 1/20 ≤ round1 x ∧ round1 x ≤ x + 1/20 := by
  unfold round1
  rw [round_eq]
  have h1 := Int.sub_one_lt_floor (10 * x + 1/2)
  have h2 := Int.floor_le (10 * x + 1/2)
  constructor <;> (push_cast; linarith)

/-- Every bucket of the reference-range table has positive bounds that are
integer multiples of one tenth, and the two integer-formatted tests (White
Blood Cells, Platelet Count) have integer bounds. -/
theorem lab_table_bounds (t : String) (bs : List AgeBucket)
    (h : lab_reference_ranges t = some bs) : ∀ b ∈ bs,
      (∃ m : ℤ, b.lo = (m : ℚ)/10 ∧ 0 < m) ∧ (∃ n : ℤ, b.hi = (n : ℚ)/10) ∧
      ((t = "White Blood Cells" ∨ t = "Platelet Count") →
        (∃ mi : ℤ, b.lo = (mi : ℚ)) ∧ (∃ ni : ℤ, b.hi = (ni : ℚ))) := by
  unfold lab_reference_ranges at h
  split_ifs at h with h1 h2 h3 h4 h5 h6
  · injection h with h; subst h; subst h1
    intro b hb
    fin_cases hb
    · exact ⟨⟨140, by norm_num, by norm_num⟩, ⟨200, by norm_num⟩, fun hc => absurd hc (by decide)⟩
    · exact ⟨⟨95, by norm_num, by norm_num⟩, ⟨130, by norm_num⟩, fun hc => absurd hc (by decide)⟩
    · exact ⟨⟨105, by norm_num, by norm_num⟩, ⟨135, by norm_num⟩, fun hc => absurd hc (by decide)⟩
    · exact ⟨⟨110, by norm_num, by norm_num⟩, ⟨140, by norm_num⟩, fun hc => absurd hc (by decide)⟩
    · exact ⟨⟨120, by norm_num, by norm_num⟩, ⟨152, by norm_num⟩, fun hc => absurd hc (by decide)⟩
    · exact ⟨⟨126, by norm_num, by norm_num⟩, ⟨166, by norm_num⟩, fun hc => absurd hc (by decide)⟩
  · injection h with h; subst h; subst h2
    intro b hb
    fin_cases hb
    · exact ⟨⟨45, by norm_num, by norm_num⟩, ⟨57, by norm_num⟩, fun hc => absurd hc (by decide)⟩
  · injection h with h; subst h; subst h3
    intro b hb
    fin_cases hb
    · exact ⟨⟨90000, by norm_num, by norm_num⟩, ⟨300000, by norm_num⟩,
        fun _ => ⟨⟨9000, by norm_num⟩, ⟨30000, by norm_num⟩⟩⟩
    · exact ⟨⟨60000, by norm_num, by norm_num⟩, ⟨175000, by norm_num⟩,
        fun _ => ⟨⟨6000, by norm_num⟩, ⟨17500, by norm_num⟩⟩⟩
    · exact ⟨⟨55000, by norm_num, by norm_num⟩, ⟨155000, by norm_num⟩,
        fun _ => ⟨⟨5500, by norm_num⟩, ⟨15500, by norm_num⟩⟩⟩
    · exact ⟨⟨45000, by norm_num, by norm_num⟩, ⟨135000, by norm_num⟩,
        fun _ => ⟨⟨4500, by norm_num⟩, ⟨13500, by norm_num⟩⟩⟩
    · exact ⟨⟨45000, by norm_num, by norm_num⟩, ⟨110000, by norm_num⟩,
        fun _ => ⟨⟨4500, by norm_num⟩, ⟨11000, by norm_num⟩⟩⟩
  · injection h with h; subst h; subst h4
    intro b hb
    fin_cases hb
    · exact ⟨⟨1500000, by norm_num, by norm_num⟩, ⟨4500000, by norm_num⟩,
        fun _ => ⟨⟨150000, by norm_num⟩, ⟨450000, by norm_num⟩⟩⟩
  · injection h with h; subst h; subst h5
    intro b hb
    fin_cases hb
    · exact ⟨⟨700, by norm_num, by norm_num⟩, ⟨1000, by norm_num⟩, fun hc => absurd hc (by decide)⟩
  · injection h with h; subst h; subst h6
    intro b hb
    fin_cases hb
    · exact ⟨⟨2, by norm_num, by norm_num⟩, ⟨4, by norm_num⟩, fun hc => absurd hc (by decide)⟩
    · exact ⟨⟨3, by norm_num, by norm_num⟩, ⟨5, by norm_num⟩, fun hc => absurd hc (by decide)⟩
    · exact ⟨⟨4, by norm_num, by norm_num⟩, ⟨6, by norm_num⟩, fun hc => absurd hc (by decide)⟩
    · exact ⟨⟨5, by norm_num, by norm_num⟩, ⟨8, by norm_num⟩, fun hc => absurd hc (by decide)⟩
    · exact ⟨⟨6, by norm_num, by norm_num⟩, ⟨12, by norm_num⟩, fun hc => absurd hc (by decide)⟩

theorem foldl_group_step (ds : List Diagnosis) :
    ∀ (m : String → List Diagnosis) (k : String),
      (ds.foldl group_step m) k = m k ++ ds.filter (fun dx => dx.encounter_id == k) := by
  induction ds with
  | nil => intro m k; simp
  | cons d ds ih =>
    intro m k
    simp only [List.foldl_cons, ih, List.filter_cons]
    by_cases h : k = d.encounter_id
    · have hb : (d.encounter_id == k) = true := by simp [h]
      simp [group_step, h, hb, List.append_assoc]
    · have hb : (d.encounter_id == k) = false := by
        simp only [beq_eq_false_iff_ne, ne_eq]
        exact fun hc => h hc.symm
      simp [group_step, h, hb]

theorem group_diagnoses_eq_filter (diagnoses : List Diagnosis) (eid : String) :
    group_diagnoses_by_encounter diagnoses eid
      = diagnoses.filter (fun dx => dx.encounter_id == eid) := by
  unfold group_diagnoses_by_encounter
  rw [foldl_group_step]
  simp

theorem lab_reference_ranges_pos (t : String) (bs : List AgeBucket)
    (h : lab_reference_ranges t = some bs) : ∀ b ∈ bs, 0 < b.lo ∧ b.lo ≤ b.hi := by
  unfold lab_reference_ranges at h
  split_ifs at h <;>
    first
      | (injection h with h; subst h; intro b hb; fin_cases hb <;> norm_num)
      | (exact absurd h (by simp))

theorem meds_for_code_ne_nil (code : String) : meds_for_code code ≠ [] := by
  unfold meds_for_code
  split_ifs <;> simp

theorem notes_foldl_eq {α : Type} (gen : String → Encounter → Except String α)
    (enc : Encounter) :
    ∀ (l : List String) (acc : List α × List String),
      l.foldl
        (fun acc nt =>
          match gen nt enc with
          | Except.ok note => (acc.1 ++ [note], acc.2)
          | Except.error msg => (acc.1, acc.2 ++ [note_error_line nt enc msg]))
        acc
      = (acc.1 ++ l.filterMap (fun nt => (gen nt enc).toOption),
         acc.2 ++ l.filterMap
           (fun nt =>
             match gen nt enc with
             | Except.ok _ => none
             | Except.error msg => some (note_error_line nt enc msg))) := by
  intro l
  induction l with
  | nil => intro acc; simp
  | cons nt l ih =>
    intro acc
    simp only [List.foldl_cons, List.filterMap_cons]
    cases hg : gen nt enc with
    | ok a => simp [hg, ih, Except.toOption, List.append_assoc]
    | error msg => simp [hg, ih, Except.toOption, List.append_assoc]

theorem generate_notes_for_encounter_eq {α : Type}
    (gen : String → Encounter → Except String α) (enc : Encounter) :
    generate_notes_for_encounter gen enc
      = (successful_notes gen enc, failure_log gen enc) := by
  unfold generate_notes_for_encounter successful_notes failure_log
  rw [notes_foldl_eq]
  simp

theorem batch_foldl_eq {α : Type} (gen : String → Encounter → Except String α) :
    ∀ (es : List Encounter) (acc : List α × List String),
      es.foldl
        (fun acc enc =>
          (acc.1 ++ (generate_notes_for_encounter gen enc).1,
           acc.2 ++ (generate_notes_for_encounter gen enc).2))
        acc
      = (acc.1 ++ es.flatMap (successful_notes gen),
         acc.2 ++ es.flatMap (failure_log gen)) := by
  intro es
  induction es with
  | nil => intro acc; simp
  | cons e es ih =>
    intro acc
    rw [List.foldl_cons, ih, List.flatMap_cons, List.flatMap_cons]
    simp [generate_notes_for_encounter_eq, List.append_assoc]

theorem radiology_foldl_eq {α : Type} (rgen : ImagingStudy → Except String α) :
    ∀ (l : List ImagingStudy) (acc : List α × List String),
      l.foldl
        (fun acc study =>
          if study.study_status = "Completed" ∨ study.study_status = "Final" then
            match rgen study with
            | Except.ok r => (acc.1 ++ [r], acc.2)
            | Except.error msg => (acc.1, acc.2 ++ [radiology_error_line study msg])
          else acc)
        acc
      = (acc.1 ++ successful_reports rgen l, acc.2 ++ radiology_failure_log rgen l) := by
  intro l
  induction l with
  | nil =>
    intro acc
    simp [successful_reports, radiology_failure_log, eligible_studies]
  | cons s l ih =>
    intro acc
    rw [List.foldl_cons]
    by_cases hs : s.study_status = "Completed" ∨ s.study_status = "Final"
    · rw [if_pos hs]
      cases hg : rgen s with
      | ok a =>
        rw [ih]
        simp [successful_reports, radiology_failure_log, eligible_studies,
          List.filter_cons, hs, hg, Except.toOption, List.append_assoc]
      | error msg =>
        rw [ih]
        simp [successful_reports, radiology_failure_log, eligible_studies,
          List.filter_cons, hs, hg, Except.toOption, List.append_assoc]
    · rw [if_neg hs]
      rw [ih]
      simp [successful_reports, radiology_failure_log, eligible_studies,
        List.filter_cons, hs]

theorem los_choices_bounds (los : ℤ) (h : los ∈ los_choices) : 1 ≤ los ∧ los ≤ 30 := by
  fin_cases h <;> norm_num

theorem discharge_decomp (admission : ℤ) (etype : String) (em_roll : ℚ) (em_days los : ℤ)
    (h1 : 1 ≤ em_days) (h2 : 1 ≤ los) :
    ∃ d : ℤ, 0 ≤ d ∧
      generate_discharge_date admission etype em_roll em_days los = admission + 24 * d ∧
      (etype = "Outpatient" → d = 0) := by
  unfold generate_discharge_date timedelta_days
  split_ifs with hO hE hr
  · exact ⟨0, le_rfl, by ring, fun _ => rfl⟩
  · exact ⟨0, le_rfl, by ring, fun h => absurd h hO⟩
  · exact ⟨em_days, by omega, rfl, fun h => absurd h hO⟩
  · exact ⟨los, by omega, rfl, fun h => absurd h hO⟩

/-! ### The claims -/

/-- C2: every diagnosis code listed in the FINAL DIAGNOSES section of a
generated discharge summary appears among the generated diagnoses with the
same `encounter_id`, and the diagnosis list handed to the synthesizer
(`encounter_diagnoses.get(eid, [])` in `_generate_clinical_notes`) is
exactly the generated diagnoses whose `encounter_id` matches that
encounter. -/
theorem discharge_summary_codes_from_encounter (diagnoses : List Diagnosis)
    (eid c : String)
    (hc : c ∈ discharge_summary_diagnosis_codes (group_diagnoses_by_encounter diagnoses eid)) :
    (∃ dx ∈ diagnoses, dx.encounter_id = eid ∧ dx.diagnosis_code = c) ∧
    group_diagnoses_by_encounter diagnoses eid
      = diagnoses.filter (fun dx => dx.encounter_id == eid) := by
  refine ⟨?_, group_diagnoses_eq_filter diagnoses eid⟩
  rw [discharge_summary_diagnosis_codes, group_diagnoses_eq_filter] at hc
  simp only [List.mem_map, List.mem_filter] at hc
  obtain ⟨dx, ⟨hmem, henc⟩, hcode⟩ := hc
  exact ⟨dx, hmem, by simpa using henc, hcode⟩

/-- Witness for C2 at a concrete one-diagnosis input. -/
theorem discharge_summary_codes_from_encounter_witness :
    (∃ dx ∈ [(⟨"DX-00000001", "ENC-00000001", "TCH-000001", "J45.9",
        "Asthma, unspecified", "Primary", 0⟩ : Diagnosis)],
      dx.encounter_id = "ENC-00000001" ∧ dx.diagnosis_code = "J45.9") ∧
    group_diagnoses_by_encounter
        [(⟨"DX-00000001", "ENC-00000001", "TCH-000001", "J45.9",
          "Asthma, unspecified", "Primary", 0⟩ : Diagnosis)] "ENC-00000001"
      = List.filter (fun dx => dx.encounter_id == "ENC-00000001")
          [(⟨"DX-00000001", "ENC-00000001", "TCH-000001", "J45.9",
            "Asthma, unspecified", "Primary", 0⟩ : Diagnosis)] :=
  discharge_summary_codes_from_encounter
    [⟨"DX-00000001", "ENC-00000001", "TCH-000001", "J45.9",
      "Asthma, unspecified", "Primary", 0⟩] "ENC-00000001" "J45.9" (by decide)

/-- C3: every generated Encounter has `discharge_date ≥ admission_date` and
`length_of_stay = (discharge_date - admission_date).days ≥ 0`, with
Outpatient encounters discharged the same day (`length_of_stay = 0`); every
Medication has `end_date ≥ start_date`; every LabResult has
`result_date ≥` the encounter date. -/
theorem encounter_and_child_date_ordering
    (encounter_id_num med_id_num : ℕ) (pid : String) (encounter_date : ℤ)
    (department encounter_type attending complaint status : String)
    (name dosage frequency route : String)
    (em_roll : ℚ) (em_days los med_dur lab_hours : ℤ)
    (e : Encounter)
    (he : e = build_encounter encounter_id_num pid encounter_date department
      encounter_type attending complaint status em_roll em_days los)
    (med : Medication)
    (hm : med = build_medication med_id_num e name dosage frequency route med_dur)
    (h_em : 1 ≤ em_days ∧ em_days ≤ 3) (h_los : los ∈ los_choices)
    (h_dur : 1 ≤ med_dur ∧ med_dur ≤ 30) (h_hours : 1 ≤ lab_hours ∧ lab_hours ≤ 24) :
    e.admission_date ≤ e.discharge_date ∧
    e.length_of_stay = timedelta_days_field (e.discharge_date - e.admission_date) ∧
    0 ≤ e.length_of_stay ∧
    24 * e.length_of_stay = e.discharge_date - e.admission_date ∧
    (encounter_type = "Outpatient" → e.discharge_date = e.admission_date ∧ e.length_of_stay = 0) ∧
    med.start_date ≤ med.end_date ∧
    e.encounter_date ≤ lab_result_date e.encounter_date lab_hours := by
  obtain ⟨d, hd0, hdis, hout⟩ :=
    discharge_decomp encounter_date encounter_type em_roll em_days los h_em.1
      (los_choices_bounds los h_los).1
  have hfields : e.admission_date = encounter_date ∧
      e.discharge_date = generate_discharge_date encounter_date encounter_type em_roll em_days los ∧
      e.length_of_stay = timedelta_days_field
        (generate_discharge_date encounter_date encounter_type em_roll em_days los - encounter_date) ∧
      e.encounter_date = encounter_date := by
    subst he; exact ⟨rfl, rfl, rfl, rfl⟩
  obtain ⟨ha, hdis2, hlos, hed⟩ := hfields
  have hdiff : e.discharge_date - e.admission_date = 24 * d := by
    rw [ha, hdis2, hdis]; ring
  have hlosval : e.length_of_stay = d := by
    rw [hlos, hdis]
    have h24 : encounter_date + 24 * d - encounter_date = 24 * d := by ring
    rw [h24]
    unfold timedelta_days_field
    exact Int.mul_fdiv_cancel_left d (by norm_num)
  refine ⟨by omega, by rw [hlos, ha, hdis2], by omega, by omega, ?_, ?_, ?_⟩
  · intro hty
    have : d = 0 := hout hty
    constructor <;> omega
  · have : med.start_date = e.encounter_date ∧
        med.end_date = e.encounter_date + timedelta_days med_dur := by
      subst hm; exact ⟨rfl, rfl⟩
    unfold timedelta_days at this
    omega
  · unfold lab_result_date timedelta_hours
    omega

/-- Witness for C3 at a concrete Emergency encounter kept overnight. -/
theorem encounter_and_child_date_ordering_witness :
    (build_encounter 1 "TCH-000001" 0 "Emergency Department" "Emergency"
        "Dr. A, MD" "fever" "Completed" (9/10) 2 1).admission_date
      ≤ (build_encounter 1 "TCH-000001" 0 "Emergency Department" "Emergency"
        "Dr. A, MD" "fever" "Completed" (9/10) 2 1).discharge_date ∧
    (build_encounter 1 "TCH-000001" 0 "Emergency Department" "Emergency"
        "Dr. A, MD" "fever" "Completed" (9/10) 2 1).length_of_stay
      = timedelta_days_field
        ((build_encounter 1 "TCH-000001" 0 "Emergency Department" "Emergency"
          "Dr. A, MD" "fever" "Completed" (9/10) 2 1).discharge_date
        - (build_encounter 1 "TCH-000001" 0 "Emergency Department" "Emergency"
          "Dr. A, MD" "fever" "Completed" (9/10) 2 1).admission_date) ∧
    0 ≤ (build_encounter 1 "TCH-000001" 0 "Emergency Department" "Emergency"
        "Dr. A, MD" "fever" "Completed" (9/10) 2 1).length_of_stay ∧
    24 * (build_encounter 1 "TCH-000001" 0 "Emergency Department" "Emergency"
        "Dr. A, MD" "fever" "Completed" (9/10) 2 1).length_of_stay
      = (build_encounter 1 "TCH-000001" 0 "Emergency Department" "Emergency"
          "Dr. A, MD" "fever" "Completed" (9/10) 2 1).discharge_date
        - (build_encounter 1 "TCH-000001" 0 "Emergency Department" "Emergency"
          "Dr. A, MD" "fever" "Completed" (9/10) 2 1).admission_date ∧
    ("Emergency" = "Outpatient" →
      (build_encounter 1 "TCH-000001" 0 "Emergency Department" "Emergency"
          "Dr. A, MD" "fever" "Completed" (9/10) 2 1).discharge_date
        = (build_encounter 1 "TCH-000001" 0 "Emergency Department" "Emergency"
          "Dr. A, MD" "fever" "Completed" (9/10) 2 1).admission_date ∧
      (build_encounter 1 "TCH-000001" 0 "Emergency Department" "Emergency"
        "Dr. A, MD" "fever" "Completed" (9/10) 2 1).length_of_stay = 0) ∧
    (build_medication 1 (build_encounter 1 "TCH-000001" 0 "Emergency Department" "Emergency"
        "Dr. A, MD" "fever" "Completed" (9/10) 2 1) "Acetaminophen" "160 mg"
        "Twice daily" "Oral" 7).start_date
      ≤ (build_medication 1 (build_encounter 1 "TCH-000001" 0 "Emergency Department" "Emergency"
        "Dr. A, MD" "fever" "Completed" (9/10) 2 1) "Acetaminophen" "160 mg"
        "Twice daily" "Oral" 7).end_date ∧
    (build_encounter 1 "TCH-000001" 0 "Emergency Department" "Emergency"
        "Dr. A, MD" "fever" "Completed" (9/10) 2 1).encounter_date
      ≤ lab_result_date (build_encounter 1 "TCH-000001" 0 "Emergency Department" "Emergency"
        "Dr. A, MD" "fever" "Completed" (9/10) 2 1).encounter_date 5 :=
  encounter_and_child_date_ordering 1 1 "TCH-000001" 0 "Emergency Department" "Emergency"
    "Dr. A, MD" "fever" "Completed" "Acetaminophen" "160 mg" "Twice daily" "Oral"
    (9/10) 2 1 7 5 _ rfl _ rfl (by norm_num) (by decide) (by norm_num) (by norm_num)

/-- C9: a failing per-document generation — a clinical note or a radiology
report — is skipped and logged with the affected entity id, and the rest of
the batch is unaffected: the generated notes are exactly the per-encounter
successes in order with a log line naming the encounter id for each failure,
and the radiology reports are exactly the successes over the
Completed/Final studies in order with a log line naming the imaging-study id
for each failure. -/
theorem clinical_notes_batch_error_isolation {α β : Type}
    (gen : String → Encounter → Except String α) (encounters : List Encounter)
    (rgen : ImagingStudy → Except String β) (studies : List ImagingStudy) :
    generate_clinical_notes_batch gen encounters
      = (encounters.flatMap (successful_notes gen), encounters.flatMap (failure_log gen)) ∧
    (∀ enc : Encounter, ∀ line ∈ failure_log gen enc,
      ∃ nt msg, nt ∈ note_types_to_generate enc ∧ gen nt enc = Except.error msg ∧
        line = note_error_line nt enc msg) ∧
    generate_radiology_reports_batch rgen studies
      = (successful_reports rgen studies, radiology_failure_log rgen studies) ∧
    (∀ line ∈ radiology_failure_log rgen studies,
      ∃ s msg, s ∈ studies ∧ (s.study_status = "Completed" ∨ s.study_status = "Final") ∧
        rgen s = Except.error msg ∧ line = radiology_error_line s msg) := by
  refine ⟨?_, ?_, ?_, ?_⟩
  · unfold generate_clinical_notes_batch
    rw [batch_foldl_eq]
    simp
  · intro enc line hline
    unfold failure_log at hline
    rw [List.mem_filterMap] at hline
    obtain ⟨nt, hnt, hsome⟩ := hline
    cases hg : gen nt enc with
    | ok a => rw [hg] at hsome; simp at hsome
    | error msg =>
      rw [hg] at hsome
      simp only [Option.some.injEq] at hsome
      exact ⟨nt, msg, hnt, hg, hsome.symm⟩
  · unfold generate_radiology_reports_batch
    rw [radiology_foldl_eq]
    simp
  · intro line hline
    unfold radiology_failure_log eligible_studies at hline
    rw [List.mem_filterMap] at hline
    obtain ⟨s, hs, hsome⟩ := hline
    rw [List.mem_filter] at hs
    obtain ⟨hmem, hstat⟩ := hs
    have hstat2 : s.study_status = "Completed" ∨ s.study_status = "Final" :=
      of_decide_eq_true hstat
    cases hg : rgen s with
    | ok a => rw [hg] at hsome; simp at hsome
    | error msg =>
      rw [hg] at hsome
      simp only [Option.some.injEq] at hsome
      exact ⟨s, msg, hmem, hstat2, hg, hsome.symm⟩

/-- Witness for C9: an Inpatient Cardiology encounter scheduling four
documents of which only the progress note succeeds (three failures logged
with the encounter id, the success kept), and a batch of three imaging
studies in which the Completed chest x-ray succeeds, the Final brain MRI
fails and is logged with the study id, and the Preliminary study is
skipped. -/
theorem clinical_notes_batch_error_isolation_witness :
    generate_clinical_notes_batch
        (fun nt _ => if nt = "progress" then Except.ok (0 : ℕ) else Except.error "missing field")
        [⟨"ENC-00000001", "TCH-000001", 0, "Inpatient", "Cardiology", "Dr. A, MD",
          0, 24, 1, "fever", "Completed"⟩]
      = ([0],
         ["    Error generating nursing note for encounter ENC-00000001: missing field",
          "    Error generating discharge note for encounter ENC-00000001: missing field",
          "    Error generating consultation note for encounter ENC-00000001: missing field"]) ∧
    generate_radiology_reports_batch
        (fun s => if s.study_type = "chest_xray" then Except.ok (0 : ℕ)
          else Except.error "missing field")
        [⟨"IMG-00000001", "ENC-00000001", "TCH-000001", "chest_xray", "Chest X-ray", 1,
            "Dr. A, MD", "Radiology", "Completed", "XR", "Chest"⟩,
         ⟨"IMG-00000002", "ENC-00000001", "TCH-000001", "brain_mri", "Brain MRI", 2,
            "Dr. A, MD", "Radiology", "Final", "MR", "Brain"⟩,
         ⟨"IMG-00000003", "ENC-00000001", "TCH-000001", "echo", "Echocardiogram", 3,
            "Dr. A, MD", "Radiology", "Preliminary", "US", "Heart"⟩]
      = ([0],
         ["    Error generating radiology report for study IMG-00000002: missing field"]) := by
  constructor
  · rw [(clinical_notes_batch_error_isolation
      (fun nt _ => if nt = "progress" then Except.ok (0 : ℕ) else Except.error "missing field")
      [⟨"ENC-00000001", "TCH-000001", 0, "Inpatient", "Cardiology", "Dr. A, MD",
        0, 24, 1, "fever", "Completed"⟩]
      (fun s => if s.study_type = "chest_xray" then Except.ok (0 : ℕ)
        else Except.error "missing field")
      []).1]
    decide
  · rw [(clinical_notes_batch_error_isolation
      (fun nt _ => if nt = "progress" then Except.ok (0 : ℕ) else Except.error "missing field")
      [⟨"ENC-00000001", "TCH-000001", 0, "Inpatient", "Cardiology", "Dr. A, MD",
        0, 24, 1, "fever", "Completed"⟩]
      (fun s => if s.study_type = "chest_xray" then Except.ok (0 : ℕ)
        else Except.error "missing field")
      [⟨"IMG-00000001", "ENC-00000001", "TCH-000001", "chest_xray", "Chest X-ray", 1,
          "Dr. A, MD", "Radiology", "Completed", "XR", "Chest"⟩,
       ⟨"IMG-00000002", "ENC-00000001", "TCH-000001", "brain_mri", "Brain MRI", 2,
          "Dr. A, MD", "Radiology", "Final", "MR", "Brain"⟩,
       ⟨"IMG-00000003", "ENC-00000001", "TCH-000001", "echo", "Echocardiogram", 3,
          "Dr. A, MD", "Radiology", "Preliminary", "US", "Heart"⟩]).2.2.1]
    decide

theorem select_medications_length (dx_codes : List String)
    (samp : List String → List String) (h_ne : dx_codes ≠ [])
    (h_samp : ∀ l : List String, 3 < l.length → (samp l).length = 3) :
    1 ≤ (select_medications_for_diagnoses dx_codes samp).length ∧
    (select_medications_for_diagnoses dx_codes samp).length ≤ 3 := by
  unfold select_medications_for_diagnoses
  have hflat : dx_codes.flatMap meds_for_code ≠ [] := by
    cases dx_codes with
    | nil => exact absurd rfl h_ne
    | cons c rest =>
      rw [List.flatMap_cons]
      intro hcontra
      rcases List.append_eq_nil.mp hcontra with ⟨h1, _⟩
      exact meds_for_code_ne_nil c h1
  have hunique : (dx_codes.flatMap meds_for_code).dedup ≠ [] := by
    simpa [List.dedup_eq_nil] using hflat
  by_cases h : 3 < (dx_codes.flatMap meds_for_code).dedup.length
  · simp only [h, if_true]
    rw [h_samp _ h]
    omega
  · simp only [h, if_false]
    have : 0 < (dx_codes.flatMap meds_for_code).dedup.length := List.length_pos.mpr hunique
    omega

/-- C10: when `generate_medications` runs on the diagnoses that
`generate_diagnoses` produced for the same encounters (1-3 diagnosis codes
per encounter, each code contributing at least one candidate medication),
every encounter receives at least 1 and at most 3 medication records: the
deduplicated candidate list is nonempty and is capped at 3 by
`random.sample`. -/
theorem medications_per_encounter_count
    (med_id_start : ℕ) (enc : Encounter) (dx_codes : List String)
    (samp : List String → List String)
    (dosage frequency route : String) (dur : ℤ)
    (h_count : 1 ≤ dx_codes.length ∧ dx_codes.length ≤ 3)
    (h_samp : ∀ l : List String, 3 < l.length → (samp l).length = 3) :
    1 ≤ (generate_medications_for_encounter med_id_start enc dx_codes samp
          dosage frequency route dur).length ∧
    (generate_medications_for_encounter med_id_start enc dx_codes samp
      dosage frequency route dur).length ≤ 3 ∧
    ∀ med ∈ generate_medications_for_encounter med_id_start enc dx_codes samp
      dosage frequency route dur, med.encounter_id = enc.encounter_id := by
  have h_ne : dx_codes ≠ [] := by
    intro h
    rw [h] at h_count
    simp at h_count
  have hlen := select_medications_length dx_codes samp h_ne h_samp
  have hmap : (generate_medications_for_encounter med_id_start enc dx_codes samp
      dosage frequency route dur).length
      = (select_medications_for_diagnoses dx_codes samp).length := by
    unfold generate_medications_for_encounter
    rw [List.length_map, List.enum_length]
  refine ⟨by omega, by omega, ?_⟩
  intro med hmed
  unfold generate_medications_for_encounter at hmed
  rw [List.mem_map] at hmed
  obtain ⟨p, _, hp⟩ := hmed
  rw [← hp]
  rfl

/-- Witness for C10: a single asthma diagnosis yields its two mapped
medications. -/
theorem medications_per_encounter_count_witness :
    1 ≤ (generate_medications_for_encounter 1
          ⟨"ENC-00000001", "TCH-000001", 0, "Outpatient", "Pulmonology", "Dr. A, MD",
            0, 0, 0, "cough", "Completed"⟩
          ["J45.9"] (fun l => l.take 3) "2 puffs" "Twice daily" "Inhalation" 7).length ∧
    (generate_medications_for_encounter 1
      ⟨"ENC-00000001", "TCH-000001", 0, "Outpatient", "Pulmonology", "Dr. A, MD",
        0, 0, 0, "cough", "Completed"⟩
      ["J45.9"] (fun l => l.take 3) "2 puffs" "Twice daily" "Inhalation" 7).length ≤ 3 ∧
    ∀ med ∈ generate_medications_for_encounter 1
      ⟨"ENC-00000001", "TCH-000001", 0, "Outpatient", "Pulmonology", "Dr. A, MD",
        0, 0, 0, "cough", "Completed"⟩
      ["J45.9"] (fun l => l.take 3) "2 puffs" "Twice daily" "Inhalation" 7,
      med.encounter_id = "ENC-00000001" :=
  medications_per_encounter_count 1
    ⟨"ENC-00000001", "TCH-000001", 0, "Outpatient", "Pulmonology", "Dr. A, MD",
      0, 0, 0, "cough", "Completed"⟩
    ["J45.9"] (fun l => l.take 3) "2 puffs" "Twice daily" "Inhalation" 7
    (by decide)
    (fun l hl => by
      rw [List.length_take]
      omega)

/-- C5: every generated HbA1c value comes from the three-tier distribution of
`_generate_lab_value` (lines 519-534): the tier roll is a uniform draw on
`[0, 1)`, so the regions `[0, 0.75)`, `[0.75, 0.90)` and `[0.90, 1)` carry
probabilities 0.75, 0.15 and 0.10; the first yields a value in `[4.8, 6.0]`
with empty abnormal flag, the second a value in `[6.5, 8.9]` flagged `H`,
the third a value in `[9.0, 13.5]` flagged `H`, and the three regions cover
all draws, so no HbA1c value falls outside the three intervals. -/
theorem hba1c_three_tier (age : ℕ) (d : LabDraws)
    (hroll : 0 ≤ d.roll ∧ d.roll < 1) (hu : 0 ≤ d.u ∧ d.u < 1) :
    (d.roll < 3/4 →
      (generate_lab_value "Hemoglobin A1c" age d).abnormal_flag = "" ∧
      ∃ v, (generate_lab_value "Hemoglobin A1c" age d).value = LabVal.num v ∧
        24/5 ≤ v ∧ v ≤ 6) ∧
    (3/4 ≤ d.roll → d.roll < 9/10 →
      (generate_lab_value "Hemoglobin A1c" age d).abnormal_flag = "H" ∧
      ∃ v, (generate_lab_value "Hemoglobin A1c" age d).value = LabVal.num v ∧
        13/2 ≤ v ∧ v ≤ 89/10) ∧
    (9/10 ≤ d.roll →
      (generate_lab_value "Hemoglobin A1c" age d).abnormal_flag = "H" ∧
      ∃ v, (generate_lab_value "Hemoglobin A1c" age d).value = LabVal.num v ∧
        9 ≤ v ∧ v ≤ 27/2) := by
  unfold generate_lab_value
  rw [if_pos rfl]
  refine ⟨?_, ?_, ?_⟩
  · intro h1
    rw [if_pos h1]
    have hx := uniform_draw_mem (24/5) 6 d.u (by norm_num) hu.1 hu.2
    have hr := round1_bounds 48 60 (uniform_draw (24/5) 6 d.u)
      (by push_cast; linarith [hx.1]) (by push_cast; linarith [hx.2])
    refine ⟨rfl, round1 (uniform_draw (24/5) 6 d.u), rfl, ?_, ?_⟩
    · have : ((48 : ℤ) : ℚ)/10 = 24/5 := by norm_num
      linarith [hr.1, this.symm.le]
    · have : ((60 : ℤ) : ℚ)/10 = 6 := by norm_num
      linarith [hr.2]
  · intro h1 h2
    rw [if_neg (by linarith), if_pos h2]
    have hx := uniform_draw_mem (13/2) (89/10) d.u (by norm_num) hu.1 hu.2
    have hr := round1_bounds 65 89 (uniform_draw (13/2) (89/10) d.u)
      (by push_cast; linarith [hx.1]) (by push_cast; linarith [hx.2])
    refine ⟨rfl, round1 (uniform_draw (13/2) (89/10) d.u), rfl, ?_, ?_⟩
    · have : ((65 : ℤ) : ℚ)/10 = 13/2 := by norm_num
      linarith [hr.1]
    · have : ((89 : ℤ) : ℚ)/10 = 89/10 := by norm_num
      linarith [hr.2]
  · intro h1
    rw [if_neg (by linarith), if_neg (by linarith)]
    have hx := uniform_draw_mem 9 (27/2) d.u (by norm_num) hu.1 hu.2
    have hr := round1_bounds 90 135 (uniform_draw 9 (27/2) d.u)
      (by push_cast; linarith [hx.1]) (by push_cast; linarith [hx.2])
    refine ⟨rfl, round1 (uniform_draw 9 (27/2) d.u), rfl, ?_, ?_⟩
    · have : ((90 : ℤ) : ℚ)/10 = 9 := by norm_num
      linarith [hr.1]
    · have : ((135 : ℤ) : ℚ)/10 = 27/2 := by norm_num
      linarith [hr.2]

/-- Witness for C5: a normal-tier draw lands in `[4.8, 6.0]` with empty flag. -/
theorem hba1c_three_tier_witness :
    (generate_lab_value "Hemoglobin A1c" 5 ⟨1/2, 0, 1/2⟩).abnormal_flag = "" ∧
    ∃ v, (generate_lab_value "Hemoglobin A1c" 5 ⟨1/2, 0, 1/2⟩).value = LabVal.num v ∧
      24/5 ≤ v ∧ v ≤ 6 :=
  (hba1c_three_tier 5 ⟨1/2, 0, 1/2⟩ (by norm_num) (by norm_num)).1 (by norm_num)

/-- C6 (counterexample): the abnormal flag is not an iff with the reported
reference range.  An HbA1c normal-tier draw can produce 5.9 with an empty
flag while the reported range is 4.5-5.7 (value outside the range, flag
empty); and a generic-path high draw at the bottom of its interval produces
a value exactly equal to the range maximum flagged `H` (flag `H` without the
value being above the maximum). -/
theorem lab_flag_consistency_counterexample :
    (generate_lab_value "Hemoglobin A1c" 5 ⟨0, 0, 9/10⟩).abnormal_flag = "" ∧
    (generate_lab_value "Hemoglobin A1c" 5 ⟨0, 0, 9/10⟩).value = LabVal.num (59/10) ∧
    (generate_lab_value "Hemoglobin A1c" 5 ⟨0, 0, 9/10⟩).reference_range = some (9/2, 57/10) ∧
    ¬ (59/10 : ℚ) ≤ 57/10 ∧
    (generate_lab_value "Glucose" 5 ⟨19/20, 1/2, 0⟩).abnormal_flag = "H" ∧
    (generate_lab_value "Glucose" 5 ⟨19/20, 1/2, 0⟩).value = LabVal.num 100 ∧
    (generate_lab_value "Glucose" 5 ⟨19/20, 1/2, 0⟩).reference_range = some (70, 100) ∧
    ¬ (100 : ℚ) > 100 := by
  have e1 : generate_lab_value "Hemoglobin A1c" 5 ⟨0, 0, 9/10⟩
      = { value := LabVal.num (59/10), reference_range := some (9/2, 57/10),
          abnormal_flag := "" } := by
    norm_num [generate_lab_value, uniform_draw, round1, round_eq]
  have e2 : generate_lab_value "Glucose" 5 ⟨19/20, 1/2, 0⟩
      = { value := LabVal.num 100, reference_range := some (70, 100),
          abnormal_flag := "H" } := by
    norm_num +decide [generate_lab_value, lab_reference_ranges, find_age_range,
      uniform_draw, format_lab_value, round1, round_eq]
  rw [e1, e2]
  norm_num

/-- C6 (amended): on the generic table path the abnormal flag is consistent
with the reported age-bucket range up to the output rounding step: an empty
flag implies the emitted value lies in `[min, max]`; flag `L` implies the
emitted value is at most `min` (the pre-formatting draw is strictly below
`min`, but one-decimal rounding can raise it to exactly `min`) and at least
`0.7*min` minus the formatting increment; flag `H` implies the emitted value
is at least `max` (possibly exactly `max`) and at most `1.3*max` plus the
rounding increment.  (For HbA1c the flag instead tracks the three-tier
policy of C5, and a normal-tier value may lie above the reported 4.5-5.7
range.) -/
theorem lab_flag_consistency_amended
    (test_name : String) (age : ℕ) (d : LabDraws)
    (buckets : List AgeBucket) (b : AgeBucket)
    (ht : test_name ≠ "Hemoglobin A1c")
    (htab : lab_reference_ranges test_name = some buckets)
    (hfind : find_age_range buckets age = some b)
    (hroll : 0 ≤ d.roll ∧ d.roll < 1) (hcoin : 0 ≤ d.coin ∧ d.coin < 1)
    (hu : 0 ≤ d.u ∧ d.u < 1) :
    (generate_lab_value test_name age d).reference_range = some (b.lo, b.hi) ∧
    ((generate_lab_value test_name age d).abnormal_flag = "" →
      ∃ v, (generate_lab_value test_name age d).value = LabVal.num v ∧
        b.lo ≤ v ∧ v ≤ b.hi) ∧
    ((generate_lab_value test_name age d).abnormal_flag = "L" →
      ∃ v, (generate_lab_value test_name age d).value = LabVal.num v ∧
        7/10 * b.lo - 1 ≤ v ∧ v ≤ b.lo) ∧
    ((generate_lab_value test_name age d).abnormal_flag = "H" →
      ∃ v, (generate_lab_value test_name age d).value = LabVal.num v ∧
        b.hi ≤ v ∧ v ≤ 13/10 * b.hi + 1/10) := by
  have hb : 0 < b.lo ∧ b.lo ≤ b.hi :=
    lab_reference_ranges_pos test_name buckets htab b (List.mem_of_find?_eq_some hfind)
  obtain ⟨⟨mlo, hmlo, _⟩, ⟨nhi, hnhi⟩, hints⟩ :=
    lab_table_bounds test_name buckets htab b (List.mem_of_find?_eq_some hfind)
  unfold generate_lab_value
  rw [if_neg ht, htab]
  simp only [hfind]
  by_cases h9 : d.roll < 9/10
  · rw [if_pos h9]
    have hx := uniform_draw_mem b.lo b.hi d.u hb.2 hu.1 hu.2
    have hfmt : b.lo ≤ format_lab_value test_name (uniform_draw b.lo b.hi d.u) ∧
        format_lab_value test_name (uniform_draw b.lo b.hi d.u) ≤ b.hi := by
      unfold format_lab_value
      by_cases hf : test_name = "White Blood Cells" ∨ test_name = "Platelet Count"
      · rw [if_pos hf]
        obtain ⟨⟨mi, hmi⟩, _⟩ := hints hf
        refine ⟨?_, le_trans (Int.floor_le _) hx.2⟩
        rw [hmi]
        exact_mod_cast Int.le_floor.mpr (by rw [← hmi]; exact hx.1)
      · rw [if_neg hf]
        exact ⟨by rw [hmlo]; exact round1_ge mlo _ (by rw [← hmlo]; exact hx.1),
          by rw [hnhi]; exact round1_le nhi _ (by rw [← hnhi]; exact hx.2)⟩
    exact ⟨rfl,
      fun _ => ⟨format_lab_value test_name (uniform_draw b.lo b.hi d.u), rfl, hfmt.1, hfmt.2⟩,
      fun h => by simp at h,
      fun h => by simp at h⟩
  · rw [if_neg h9]
    by_cases hc : d.coin < 1/2
    · rw [if_pos hc]
      have hx := uniform_draw_mem (7/10 * b.lo) b.lo d.u (by nlinarith [hb.1]) hu.1 hu.2
      have hxlt := uniform_draw_lt (7/10 * b.lo) b.lo d.u (by nlinarith [hb.1]) hu.1 hu.2
      have hfmt : 7/10 * b.lo - 1 ≤ format_lab_value test_name (uniform_draw (7/10 * b.lo) b.lo d.u) ∧
          format_lab_value test_name (uniform_draw (7/10 * b.lo) b.lo d.u) ≤ b.lo := by
        unfold format_lab_value
        by_cases hf : test_name = "White Blood Cells" ∨ test_name = "Platelet Count"
        · rw [if_pos hf]
          have hfl := Int.sub_one_lt_floor (uniform_draw (7/10 * b.lo) b.lo d.u)
          refine ⟨by linarith [hx.1], le_trans (Int.floor_le _) (le_of_lt hxlt)⟩
        · rw [if_neg hf]
          have hn := round1_near (uniform_draw (7/10 * b.lo) b.lo d.u)
          refine ⟨by linarith [hx.1, hn.1], ?_⟩
          rw [hmlo]
          exact round1_le mlo _ (by rw [← hmlo]; exact le_of_lt hxlt)
      exact ⟨rfl,
        fun h => by simp at h,
        fun _ => ⟨format_lab_value test_name (uniform_draw (7/10 * b.lo) b.lo d.u),
          rfl, hfmt.1, hfmt.2⟩,
        fun h => by simp at h⟩
    · rw [if_neg hc]
      have hx := uniform_draw_mem b.hi (13/10 * b.hi) d.u (by nlinarith [hb.1, hb.2]) hu.1 hu.2
      have hxlt := uniform_draw_lt b.hi (13/10 * b.hi) d.u (by nlinarith [hb.1, hb.2]) hu.1 hu.2
      have hfmt : b.hi ≤ format_lab_value test_name (uniform_draw b.hi (13/10 * b.hi) d.u) ∧
          format_lab_value test_name (uniform_draw b.hi (13/10 * b.hi) d.u)
            ≤ 13/10 * b.hi + 1/10 := by
        unfold format_lab_value
        by_cases hf : test_name = "White Blood Cells" ∨ test_name = "Platelet Count"
        · rw [if_pos hf]
          obtain ⟨_, ⟨ni, hni⟩⟩ := hints hf
          refine ⟨?_, by linarith [Int.floor_le (uniform_draw b.hi (13/10 * b.hi) d.u)]⟩
          rw [hni]
          exact_mod_cast Int.le_floor.mpr (by rw [← hni]; exact hx.1)
        · rw [if_neg hf]
          have hn := round1_near (uniform_draw b.hi (13/10 * b.hi) d.u)
          refine ⟨?_, by linarith [hn.2]⟩
          rw [hnhi]
          exact round1_ge nhi _ (by rw [← hnhi]; exact hx.1)
      exact ⟨rfl,
        fun h => by simp at h,
        fun h => by simp at h,
        fun _ => ⟨format_lab_value test_name (uniform_draw b.hi (13/10 * b.hi) d.u),
          rfl, hfmt.1, hfmt.2⟩⟩

/-- Witness for C6 (amended): a normal-branch Glucose draw yields an
empty-flag value inside the reported 70-100 range. -/
theorem lab_flag_consistency_amended_witness :
    ∃ v, (generate_lab_value "Glucose" 5 ⟨1/2, 0, 1/2⟩).value = LabVal.num v ∧
      (⟨0, 21, 70, 100⟩ : AgeBucket).lo ≤ v ∧ v ≤ (⟨0, 21, 70, 100⟩ : AgeBucket).hi :=
  (lab_flag_consistency_amended "Glucose" 5 ⟨1/2, 0, 1/2⟩
    [⟨0, 21, 70, 100⟩] ⟨0, 21, 70, 100⟩ (by decide) (by decide) (by decide)
    (by norm_num) (by norm_num) (by norm_num)).2.1
    (by norm_num +decide [generate_lab_value, lab_reference_ranges, find_age_range])

/-- C7 (counterexample): `'Thyroid Function'` is a selectable lab test (it is
in the Endocrinology panel of `_select_lab_tests` and is forced to coexist
with the always-included HbA1c), it is not HbA1c, yet it has no entry in the
reference-range table, so `_generate_lab_value` returns the constant
`("Normal", "Reference range not defined", "")` for every draw instead of a
value produced from the age-bucketed table by the 90/10 scheme. -/
theorem lab_generic_path_counterexample :
    "Thyroid Function" ∈ select_lab_tests "Endocrinology" ["Thyroid Function"] ∧
    "Thyroid Function" ≠ "Hemoglobin A1c" ∧
    lab_reference_ranges "Thyroid Function" = none ∧
    generate_lab_value "Thyroid Function" 5 ⟨0, 0, 0⟩
      = { value := LabVal.text "Normal", reference_range := none, abnormal_flag := "" } ∧
    generate_lab_value "Thyroid Function" 5 ⟨1/2, 1/2, 1/2⟩
      = { value := LabVal.text "Normal", reference_range := none, abnormal_flag := "" } := by
  refine ⟨by decide, by decide, by decide, ?_, ?_⟩
  · norm_num +decide [generate_lab_value, lab_reference_ranges]
  · norm_num +decide [generate_lab_value, lab_reference_ranges]

/-- C7 (amended): for every selected lab test other than HbA1c that has an
entry in the age-bucketed reference-range table (of the selectable tests
only `'Thyroid Function'` has none; it yields the constant `"Normal"` with
empty flag), the value is generated by the 90/10 scheme: a first roll below
0.9 yields a uniform value inside the bucket's `[min, max]` with empty flag,
otherwise a second roll splits 50/50 between a low value drawn from
`[0.7*min, min]` flagged `L` and a high value drawn from `[max, 1.3*max]`
flagged `H`; the emitted value is the drawn value after the output
formatting step (`format_lab_value`: int truncation for White Blood Cells /
Platelet Count, one decimal place otherwise). -/
theorem lab_generic_path_amended
    (test_name : String) (age : ℕ) (d : LabDraws)
    (buckets : List AgeBucket) (b : AgeBucket)
    (ht : test_name ≠ "Hemoglobin A1c")
    (htab : lab_reference_ranges test_name = some buckets)
    (hfind : find_age_range buckets age = some b)
    (hroll : 0 ≤ d.roll ∧ d.roll < 1) (hcoin : 0 ≤ d.coin ∧ d.coin < 1)
    (hu : 0 ≤ d.u ∧ d.u < 1) :
    (d.roll < 9/10 →
      generate_lab_value test_name age d
        = { value := LabVal.num (format_lab_value test_name (uniform_draw b.lo b.hi d.u)),
            reference_range := some (b.lo, b.hi), abnormal_flag := "" } ∧
      b.lo ≤ uniform_draw b.lo b.hi d.u ∧ uniform_draw b.lo b.hi d.u ≤ b.hi) ∧
    (9/10 ≤ d.roll → d.coin < 1/2 →
      generate_lab_value test_name age d
        = { value := LabVal.num (format_lab_value test_name (uniform_draw (7/10 * b.lo) b.lo d.u)),
            reference_range := some (b.lo, b.hi), abnormal_flag := "L" } ∧
      7/10 * b.lo ≤ uniform_draw (7/10 * b.lo) b.lo d.u ∧
      uniform_draw (7/10 * b.lo) b.lo d.u ≤ b.lo) ∧
    (9/10 ≤ d.roll → 1/2 ≤ d.coin →
      generate_lab_value test_name age d
        = { value := LabVal.num (format_lab_value test_name (uniform_draw b.hi (13/10 * b.hi) d.u)),
            reference_range := some (b.lo, b.hi), abnormal_flag := "H" } ∧
      b.hi ≤ uniform_draw b.hi (13/10 * b.hi) d.u ∧
      uniform_draw b.hi (13/10 * b.hi) d.u ≤ 13/10 * b.hi) := by
  have hb : 0 < b.lo ∧ b.lo ≤ b.hi :=
    lab_reference_ranges_pos test_name buckets htab b (List.mem_of_find?_eq_some hfind)
  unfold generate_lab_value
  rw [if_neg ht, htab]
  simp only [hfind]
  refine ⟨?_, ?_, ?_⟩
  · intro h9
    rw [if_pos h9]
    exact ⟨rfl, (uniform_draw_mem b.lo b.hi d.u hb.2 hu.1 hu.2).1,
      (uniform_draw_mem b.lo b.hi d.u hb.2 hu.1 hu.2).2⟩
  · intro h9 hc
    rw [if_neg (by linarith), if_pos hc]
    have hx := uniform_draw_mem (7/10 * b.lo) b.lo d.u (by nlinarith [hb.1]) hu.1 hu.2
    exact ⟨rfl, hx.1, hx.2⟩
  · intro h9 hc
    rw [if_neg (by linarith), if_neg (by linarith)]
    have hx := uniform_draw_mem b.hi (13/10 * b.hi) d.u (by nlinarith [hb.1, hb.2]) hu.1 hu.2
    exact ⟨rfl, hx.1, hx.2⟩

/-- Witness for C7 (amended): a low-branch Glucose draw yields the `L`-flagged
record whose raw draw lies in `[0.7*70, 70]`. -/
theorem lab_generic_path_amended_witness :
    generate_lab_value "Glucose" 5 ⟨19/20, 0, 1/2⟩
      = { value := LabVal.num (format_lab_value "Glucose"
            (uniform_draw (7/10 * (⟨0, 21, 70, 100⟩ : AgeBucket).lo)
              (⟨0, 21, 70, 100⟩ : AgeBucket).lo (1/2))),
          reference_range := some ((⟨0, 21, 70, 100⟩ : AgeBucket).lo,
            (⟨0, 21, 70, 100⟩ : AgeBucket).hi),
          abnormal_flag := "L" } ∧
    7/10 * (⟨0, 21, 70, 100⟩ : AgeBucket).lo
      ≤ uniform_draw (7/10 * (⟨0, 21, 70, 100⟩ : AgeBucket).lo)
          (⟨0, 21, 70, 100⟩ : AgeBucket).lo (1/2) ∧
    uniform_draw (7/10 * (⟨0, 21, 70, 100⟩ : AgeBucket).lo)
      (⟨0, 21, 70, 100⟩ : AgeBucket).lo (1/2) ≤ (⟨0, 21, 70, 100⟩ : AgeBucket).lo :=
  (lab_generic_path_amended "Glucose" 5 ⟨19/20, 0, 1/2⟩
    [⟨0, 21, 70, 100⟩] ⟨0, 21, 70, 100⟩ (by decide) (by decide) (by decide)
    (by norm_num) (by norm_num) (by norm_num)).2.1 (by norm_num) (by norm_num)

/-- C8 (counterexample): the three symptom phrasings do not occur with
probabilities 0.40 / 0.20 / 0.40.  The two draws of `describe_symptom` are
sequential, so the branch regions of the unit square have measures
negation = 0.2, severity = 0.8 * 0.6 = 0.48 and plain = 0.8 * 0.4 = 0.32,
and neither 0.48 nor 0.32 equals the claimed 0.40. -/
theorem symptom_phrasing_counterexample :
    plain_probability = 8/25 ∧ severity_probability = 12/25 ∧
    negation_probability = 1/5 ∧ plain_probability ≠ 2/5 ∧ severity_probability ≠ 2/5 := by
  norm_num [plain_probability, severity_probability, negation_probability,
    negation_threshold, severity_threshold]

/-- C8 (amended): each progress-note symptom is independently phrased by two
sequential uniform draws: a negation (`"denies X"`) when the first draw is
below 0.2 (probability 0.20), otherwise a severity-qualified mention when
the second draw is below 0.6 (probability 0.8 * 0.6 = 0.48), otherwise a
plain mention (probability 0.8 * 0.4 = 0.32); the symptoms themselves are
2-4 items sampled from the fixed `pediatric_symptoms` vocabulary. -/
theorem symptom_phrasing_amended (r1 r2 : ℚ) (k : ℕ) (sym : String)
    (h1 : 0 ≤ r1 ∧ r1 < 1) (h2 : 0 ≤ r2 ∧ r2 < 1)
    (symptoms : List String) (n : ℕ) (hn : 2 ≤ n ∧ n ≤ 4)
    (hsample : symptoms.length = n ∧ ∀ s ∈ symptoms, s ∈ pediatric_symptoms) :
    (phrase_branch r1 r2 = SymptomPhrasing.negation ↔ r1 < 1/5) ∧
    (phrase_branch r1 r2 = SymptomPhrasing.severity ↔ 1/5 ≤ r1 ∧ r2 < 3/5) ∧
    (phrase_branch r1 r2 = SymptomPhrasing.plain ↔ 1/5 ≤ r1 ∧ 3/5 ≤ r2) ∧
    (r1 < 1/5 → describe_symptom r1 r2 k sym = "denies " ++ sym) ∧
    (1/5 ≤ r1 → r2 < 3/5 →
      describe_symptom r1 r2 k sym = severity_terms.getD k "mild" ++ " " ++ sym) ∧
    (1/5 ≤ r1 → 3/5 ≤ r2 → describe_symptom r1 r2 k sym = sym) ∧
    negation_probability = 1/5 ∧ severity_probability = 12/25 ∧ plain_probability = 8/25 ∧
    2 ≤ symptoms.length ∧ symptoms.length ≤ 4 ∧
    ∀ s ∈ symptoms, s ∈ pediatric_symptoms := by
  have hcases : (phrase_branch r1 r2 = SymptomPhrasing.negation ↔ r1 < negation_threshold) ∧
      (phrase_branch r1 r2 = SymptomPhrasing.severity
        ↔ ¬ r1 < negation_threshold ∧ r2 < severity_threshold) ∧
      (phrase_branch r1 r2 = SymptomPhrasing.plain
        ↔ ¬ r1 < negation_threshold ∧ ¬ r2 < severity_threshold) := by
    unfold phrase_branch
    by_cases ha : r1 < negation_threshold <;> by_cases hb : r2 < severity_threshold <;>
      simp [ha, hb]
  obtain ⟨c1, c2, c3⟩ := hcases
  have hneg : negation_threshold = 1/5 := rfl
  have hsev : severity_threshold = 3/5 := rfl
  rw [hneg] at c1 c2 c3
  rw [hsev] at c2 c3
  refine ⟨by rw [c1], by rw [c2]; simp [not_lt], by rw [c3]; simp [not_lt],
    ?_, ?_, ?_, rfl,
    by norm_num [severity_probability, negation_threshold, severity_threshold],
    by norm_num [plain_probability, negation_threshold, severity_threshold],
    by omega, by omega, hsample.2⟩
  · intro h
    have hb := c1.mpr h
    simp only [describe_symptom, hb]
  · intro ha hb
    have hb2 := c2.mpr ⟨not_lt.mpr ha, hb⟩
    simp only [describe_symptom, hb2]
  · intro ha hb
    have hb2 := c3.mpr ⟨not_lt.mpr ha, not_lt.mpr hb⟩
    simp only [describe_symptom, hb2]

/-- Witness for C8 (amended): draws (0.5, 0.5) give a severity-qualified
mention. -/
theorem symptom_phrasing_amended_witness :
    describe_symptom (1/2) (1/2) 0 "fever" = severity_terms.getD 0 "mild" ++ " " ++ "fever" :=
  (symptom_phrasing_amended (1/2) (1/2) 0 "fever" (by norm_num) (by norm_num)
    ["fever", "cough"] 2 (by norm_num) (by decide)).2.2.2.2.1 (by norm_num) (by norm_num)

/-- C1 (code bug): the clinical-document id is
`f"NOTE-{uuid.uuid4().hex[:8].upper()}"` — derived from OS entropy, not from
the seeded random source — so two runs with the same seed and arguments
produce different `note_id` values in `clinical_notes.csv` (and different
document filenames), contradicting the byte-identical-output determinism the
code's own docstrings promise ("consistent seed for reproducible data"). -/
theorem note_id_not_seed_determined :
    note_id_str "aaaaaaaabbbbccccddddeeeeffff0000"
      ≠ note_id_str "bbbbbbbbaaaaccccddddeeeeffff0000" ∧
    note_id_str "aaaaaaaabbbbccccddddeeeeffff0000" = "NOTE-AAAAAAAA" := by
  decide

/-- C4 (counterexample): the clinical-document id is not a human-readable
prefix plus a zero-padded decimal sequence number: its suffix is uppercased
uuid4 hex (containing non-digit characters), and it varies with the OS
entropy even at the same position in the generation sequence. -/
theorem entity_id_format_counterexample :
    note_id_str "deadbeefcafebabe0123456789abcdef" = "NOTE-DEADBEEF" ∧
    (∃ c ∈ ("DEADBEEF" : String).data, ¬ c.isDigit) ∧
    note_id_str "deadbeefcafebabe0123456789abcdef"
      ≠ note_id_str "cafebabe0123456789abcdefdeadbeef" := by
  refine ⟨by decide, ⟨'D', by decide, by decide⟩, by decide⟩

/-- C4 (amended): every structured entity id — patients `TCH-`, encounters
`ENC-`, diagnoses `DX-`, lab results `LAB-`, medications `MED-`, vital signs
`VS-`, imaging studies `IMG-`, providers `PROV-`, departments `DEPT-` — is a
human-readable prefix plus a zero-padded sequence number from a per-entity
monotonic counter starting at 1, and each scheme assigns pairwise-distinct
ids independently of the random source (the id functions take no draw
arguments and are injective); clinical documents are the exception: their
ids are `NOTE-` (or `RAD-`/`NURS-`/`CONS-`) plus the uppercased first 8 hex
digits of `uuid.uuid4()`, i.e. entropy-derived and not counter-assigned. -/
theorem entity_id_format_amended (count m n : ℕ)
    (h : encounter_id_str m = encounter_id_str n) :
    m = n ∧
    (∀ i j, patient_id_str i = patient_id_str j → i = j) ∧
    (∀ i j, diagnosis_id_str i = diagnosis_id_str j → i = j) ∧
    (∀ i j, lab_id_str i = lab_id_str j → i = j) ∧
    (∀ i j, medication_id_str i = medication_id_str j → i = j) ∧
    (∀ i j, vital_sign_id_str i = vital_sign_id_str j → i = j) ∧
    (∀ i j, imaging_id_str i = imaging_id_str j → i = j) ∧
    (∀ i j, provider_id_str i = provider_id_str j → i = j) ∧
    (∀ i j, department_id_str i = department_id_str j → i = j) ∧
    (generate_patient_ids count).Nodup ∧
    patient_id_str 0 = "TCH-000001" ∧
    encounter_id_str 1 = "ENC-00000001" ∧
    diagnosis_id_str 1 = "DX-00000001" ∧
    lab_id_str 1 = "LAB-00000001" ∧
    medication_id_str 1 = "MED-00000001" ∧
    vital_sign_id_str 1 = "VS-00000001" ∧
    imaging_id_str 1 = "IMG-00000001" ∧
    provider_id_str 1 = "PROV-000001" ∧
    department_id_str 1 = "DEPT-001" ∧
    note_id_str "deadbeefcafebabe0123456789abcdef"
      ≠ note_id_str "cafebabe0123456789abcdefdeadbeef" := by
  refine ⟨encounter_id_str_injective h,
    fun i j hp => by
      have := string_append_left_cancel "TCH-" _ _ hp
      have := zero_padded_injective 6 this
      omega,
    fun i j hp => prefixed_id_injective "DX-" 8 i j hp,
    fun i j hp => prefixed_id_injective "LAB-" 8 i j hp,
    fun i j hp => prefixed_id_injective "MED-" 8 i j hp,
    fun i j hp => prefixed_id_injective "VS-" 8 i j hp,
    fun i j hp => prefixed_id_injective "IMG-" 8 i j hp,
    fun i j hp => prefixed_id_injective "PROV-" 6 i j hp,
    fun i j hp => prefixed_id_injective "DEPT-" 3 i j hp,
    ?_, by decide, by decide, by decide, by decide, by decide, by decide,
    by decide, by decide, by decide, by decide⟩
  unfold generate_patient_ids
  exact (List.nodup_range count).map patient_id_str_injective

/-- Witness for C4 (amended) at counter value 7 and three patients. -/
theorem entity_id_format_amended_witness :
    7 = 7 ∧
    (∀ i j, patient_id_str i = patient_id_str j → i = j) ∧
    (∀ i j, diagnosis_id_str i = diagnosis_id_str j → i = j) ∧
    (∀ i j, lab_id_str i = lab_id_str j → i = j) ∧
    (∀ i j, medication_id_str i = medication_id_str j → i = j) ∧
    (∀ i j, vital_sign_id_str i = vital_sign_id_str j → i = j) ∧
    (∀ i j, imaging_id_str i = imaging_id_str j → i = j) ∧
    (∀ i j, provider_id_str i = provider_id_str j → i = j) ∧
    (∀ i j, department_id_str i = department_id_str j → i = j) ∧
    (generate_patient_ids 3).Nodup ∧
    patient_id_str 0 = "TCH-000001" ∧
    encounter_id_str 1 = "ENC-00000001" ∧
    diagnosis_id_str 1 = "DX-00000001" ∧
    lab_id_str 1 = "LAB-00000001" ∧
    medication_id_str 1 = "MED-00000001" ∧
    vital_sign_id_str 1 = "VS-00000001" ∧
    imaging_id_str 1 = "IMG-00000001" ∧
    provider_id_str 1 = "PROV-000001" ∧
    department_id_str 1 = "DEPT-001" ∧
    note_id_str "deadbeefcafebabe0123456789abcdef"
      ≠ note_id_str "cafebabe0123456789abcdefdeadbeef" :=
  entity_id_format_amended 3 7 7 rfl

end TCH
